import Mathlib

/-!
Shallow embedding of `discover_jenkins/runner.py` (django-discover-jenkins).

The file embeds the task resolver (`get_tasks`), the legacy option
collector (`get_task_options`), and the `CIRunner` mixin's lifecycle
methods (`__init__`, `setup_test_environment`, `run_suite`,
`teardown_test_environment`).  External collaborators (the settings
module's `TASKS` and `OUTPUT_DIR`, Python's import machinery, the task
plugin classes, the wrapped Django runner and the XML result object) are
modelled abstractly as parameters; lifecycle behaviour is captured as a
trace of events plus an `Except` outcome, so that exception propagation
(`ImproperlyConfigured`, `AttributeError`, exceptions raised by task
hooks) is explicit.
-/

/-- Keyword arguments (`**kwargs` / `**options`) passed through Python calls,
modelled as an association list of strings. -/
abbrev KW := List (String × String)

/-- Exceptions that the embedded code can raise:
`ImproperlyConfigured` (raised by `get_tasks`), `AttributeError`
(unguarded attribute access such as `cls.option_list` or reads of
attributes that `__init__` never created), and an exception propagating
out of a task hook. -/
inductive PyError where
  | improperlyConfigured (msg : String)
  | attributeError (attr : String)
  | hookError (e : String)
  deriving DecidableEq

/-- Outcome of calling a task hook that exists: it either returns
normally or raises an exception carrying a message. -/
inductive HookResult where
  | ok
  | exn (e : String)
  deriving DecidableEq

/-- A task instance, as constructed by `CIRunner.__init__`.  Each of the
four lifecycle hooks is optional (`hasattr` capability detection in the
source); when present it has a fixed outcome.  `task_name` identifies the
instance in traces. -/
structure PyTask where
  task_name : String
  setup_test_environment : Option HookResult
  before_suite_run : Option HookResult
  after_suite_run : Option HookResult
  teardown_test_environment : Option HookResult
  deriving DecidableEq

/-- A legacy `optparse` option as built by `make_option` in the source:
flag string, action, destination, default (a string or a boolean), and
help text. -/
structure OptionFlag where
  flag : String
  action : String
  dest : String
  dflt : Sum String Bool
  help : String
  deriving DecidableEq

/-- A task class named by a task descriptor.  `option_list` is the
class-level attribute read (unguarded) by `get_task_options`: `none`
models a class that does not define it, so reading raises
`AttributeError`.  `make` is the class constructor, called as
`task_class(output_dir=output_dir, **options)`. -/
structure TaskClass where
  class_name : String
  option_list : Option (List OptionFlag)
  make : Option String → KW → PyTask

/-- A Python module, for the purpose of `getattr(mod, classname)`:
an association list of class names to task classes. -/
structure PyModule where
  classes : List (String × TaskClass)

/-- The ambient Python environment: `import_module` (which either raises
`ImportError` with a message or returns a module), and the settings
constants `TASKS` and `OUTPUT_DIR` read by `runner.py` from
`.settings`. -/
structure PyEnv where
  import_module : String → Except String PyModule
  TASKS : List String
  OUTPUT_DIR : String

/-- Python's `task_path.rsplit('.', 1)` unpacked into `(module, classname)`:
splits at the LAST dot; `none` models the `ValueError` raised when the
string has no dot (unpacking a one-element list). -/
def rsplitDotAux : List Char → Option (List Char × List Char)
  | [] => none
  | c :: cs =>
    match rsplitDotAux cs with
    | some (m, r) => some (c :: m, r)
    | none => if c = '.' then some ([], cs) else none

/-- String-level wrapper for `rsplit('.', 1)` into two pieces. -/
def rsplitDot (s : String) : Option (String × String) :=
  match rsplitDotAux s.data with
  | some (m, r) => some (⟨m⟩, ⟨r⟩)
  | none => none

/-- The body of the `for task_path in TASKS` loop of `get_tasks`
(runner.py lines 16-31): split the descriptor, import the module, fetch
the class attribute, raising `ImproperlyConfigured` with the source's
message at each failure point. -/
def resolveTask (env : PyEnv) (task_path : String) : Except PyError TaskClass :=
  match rsplitDot task_path with
  | none =>
      Except.error (PyError.improperlyConfigured
        (task_path ++ " isn\x27t a task module"))
  | some (module, classname) =>
    match env.import_module module with
    | Except.error e =>
        Except.error (PyError.improperlyConfigured
          ("Error importing task " ++ (module ++ (": \x22" ++ (e ++ "\x22")))))
    | Except.ok mod =>
      match mod.classes.lookup classname with
      | none =>
          Except.error (PyError.improperlyConfigured
            ("Task module \x22" ++ (module ++ ("\x22 does not define a \x22"
              ++ (classname ++ "\x22 class")))))
      | some task_class => Except.ok task_class

/-- `get_tasks` (runner.py lines 13-32): resolve every descriptor of the
given `TASKS` list in order, aborting at the first failure. -/
def get_tasks (env : PyEnv) : List String → Except PyError (List TaskClass)
  | [] => Except.ok []
  | p :: ps =>
    match resolveTask env p with
    | Except.error e => Except.error e
    | Except.ok c =>
      match get_tasks env ps with
      | Except.error e => Except.error e
      | Except.ok cs => Except.ok (c :: cs)

/-- One step of the `options += cls.option_list` loop in
`get_task_options` (runner.py lines 39-41).  The attribute access is
unguarded in the source, so a class without `option_list` raises
`AttributeError`. -/
def optStep (acc : List OptionFlag) (c : TaskClass) : Except PyError (List OptionFlag) :=
  match c.option_list with
  | some opts => Except.ok (acc ++ opts)
  | none => Except.error (PyError.attributeError "option_list")

/-- `get_task_options` continued: the loop `for cls in task_classes:
options += cls.option_list` as a monadic fold of `optStep`. -/
def get_task_options (env : PyEnv) : Except PyError (List OptionFlag) :=
  match get_tasks env env.TASKS with
  | Except.error e => Except.error e
  | Except.ok classes => classes.foldlM optStep []

/-- The `--jenkins` option built by `make_option` in `CIRunner.option_list`. -/
def jenkins_option : OptionFlag :=
  { flag := "--jenkins", action := "store_true", dest := "jenkins",
    dflt := Sum.inr false,
    help := "Process the Jenkins tasks from TEST_JENKINS_TASKS." }

/-- The `--output-dir` option built by `make_option` in
`CIRunner.option_list`; its default is the settings constant `OUTPUT_DIR`. -/
def output_dir_option (env : PyEnv) : OptionFlag :=
  { flag := "--output-dir", action := "store", dest := "output_dir",
    dflt := Sum.inl env.OUTPUT_DIR,
    help := "Top level of project for unittest discovery." }

/-- `CIRunner.option_list` (runner.py lines 51-67, the Django < 1.8
branch): the task-contributed options followed by the `--jenkins` and
`--output-dir` options. -/
def CIRunner_option_list (env : PyEnv) : Except PyError (List OptionFlag) :=
  match get_task_options env with
  | Except.error e => Except.error e
  | Except.ok opts => Except.ok (opts ++ [jenkins_option, output_dir_option env])

/-- Substring containment on strings, used to state that an error
message mentions a module or class name. -/
def strContains (s t : String) : Prop :=
  ∃ a b : List Char, s.data = a ++ t.data ++ b

/-- Observable events of a lifecycle call: delegations to the wrapped
runner via `super()`, task hook invocations, the buffered
`unittest.TextTestRunner(...).run(suite)` call, and `result.dump_xml`. -/
inductive Event where
  | superSetup (kwargs : KW)
  | superRunSuite (suite : Nat) (kwargs : KW)
  | superTeardown (kwargs : KW)
  | hookSetup (task : String) (kwargs : KW)
  | hookBefore (task : String) (suite : Nat) (kwargs : KW)
  | hookAfter (task : String) (suite : Nat) (kwargs : KW)
  | hookTeardown (task : String) (kwargs : KW)
  | runSuite (suite : Nat) (buffer : Bool) (verbosity : Nat) (failfast : Bool)
  | dumpXML (output_dir : Option String)
  deriving DecidableEq

/-- One `for task in self.tasks: if hasattr(task, h): task.h(...)` loop:
tasks without the hook are skipped, a raising hook stops the loop and
yields its exception message.  Returns the hook-call events in order and
the propagating exception, if any. -/
def dispatchHooks (hook : PyTask → Option HookResult) (ev : PyTask → Event) :
    List PyTask → List Event × Option String
  | [] => ([], none)
  | t :: ts =>
    match hook t with
    | none => dispatchHooks hook ev ts
    | some HookResult.ok =>
      let rest := dispatchHooks hook ev ts
      (ev t :: rest.1, rest.2)
    | some (HookResult.exn e) => ([ev t], some e)

/-- The result of the buffered XML test run
`unittest.TextTestRunner(buffer=True, resultclass=XMLTestResult,
verbosity=self.verbosity, failfast=self.failfast).run(suite)`:
it records the suite it ran and the configuration it was given. -/
structure TestResult where
  suite : Nat
  buffer : Bool
  verbosity : Nat
  failfast : Bool
  deriving DecidableEq

/-- What `run_suite` returns: the XML-collecting result in Jenkins mode,
or the wrapped runner's own result (an abstract token of that call)
when delegating. -/
inductive RunResult where
  | xml (res : TestResult)
  | superResult (suite : Nat) (kwargs : KW)
  deriving DecidableEq

/-- The `CIRunner` mixin's state after `__init__`.  `output_dir` and
`tasks` are wrapped in an outer `Option` recording whether `__init__`
created the attribute at all (it only does so when `jenkins` is true);
`output_dir`'s inner `Option String` is the Python value, possibly
`None`.  `verbosity` and `failfast` are the wrapped runner's own
settings, set by the base `__init__`. -/
structure CIRunner where
  jenkins : Bool
  output_dir : Option (Option String)
  tasks : Option (List PyTask)
  verbosity : Nat
  failfast : Bool

/-- `CIRunner.__init__` (runner.py lines 69-83): store the `jenkins`
flag; only when it is set, store `output_dir`, resolve the task classes
with `get_tasks` (whose `ImproperlyConfigured` propagates), and
instantiate each class in order with `(output_dir=output_dir,
**options)`. -/
def CIRunner.init (env : PyEnv) (jenkins : Bool) (output_dir : Option String)
    (verbosity : Nat) (failfast : Bool) (options : KW) :
    Except PyError CIRunner :=
  if jenkins then
    match get_tasks env env.TASKS with
    | Except.error e => Except.error e
    | Except.ok task_classes =>
      Except.ok
        { jenkins := true,
          output_dir := some output_dir,
          tasks := some (task_classes.map (fun c => c.make output_dir options)),
          verbosity := verbosity, failfast := failfast }
  else
    Except.ok
      { jenkins := false, output_dir := none, tasks := none,
        verbosity := verbosity, failfast := failfast }

/-- `CIRunner.setup_test_environment` (runner.py lines 99-104): call the
wrapped runner's setup first; then, if in Jenkins mode, read
`self.tasks` (an `AttributeError` if never created) and dispatch each
task's `setup_test_environment` hook if present. -/
def CIRunner.setup_test_environment (r : CIRunner) (kwargs : KW) :
    List Event × Except PyError Unit :=
  if r.jenkins then
    match r.tasks with
    | none => ([Event.superSetup kwargs], Except.error (PyError.attributeError "tasks"))
    | some ts =>
      let d := dispatchHooks (fun t => t.setup_test_environment)
        (fun t => Event.hookSetup t.task_name kwargs) ts
      (Event.superSetup kwargs :: d.1,
        match d.2 with
        | none => Except.ok ()
        | some e => Except.error (PyError.hookError e))
  else ([Event.superSetup kwargs], Except.ok ())

/-- `CIRunner.run_suite` (runner.py lines 106-129): in Jenkins mode,
dispatch each task's `before_suite_run` hook, run the suite buffered
with the runner's own `verbosity` and `failfast`, dump the result as XML
into `self.output_dir`, dispatch each task's `after_suite_run` hook, and
return the result; otherwise delegate to the wrapped runner. -/
def CIRunner.run_suite (r : CIRunner) (suite : Nat) (kwargs : KW) :
    List Event × Except PyError RunResult :=
  if r.jenkins then
    match r.tasks with
    | none => ([], Except.error (PyError.attributeError "tasks"))
    | some ts =>
      let db := dispatchHooks (fun t => t.before_suite_run)
        (fun t => Event.hookBefore t.task_name suite kwargs) ts
      match db.2 with
      | some e => (db.1, Except.error (PyError.hookError e))
      | none =>
        let result : TestResult :=
          { suite := suite, buffer := true,
            verbosity := r.verbosity, failfast := r.failfast }
        let runEv := Event.runSuite suite true r.verbosity r.failfast
        match r.output_dir with
        | none =>
          (db.1 ++ [runEv], Except.error (PyError.attributeError "output_dir"))
        | some od =>
          let da := dispatchHooks (fun t => t.after_suite_run)
            (fun t => Event.hookAfter t.task_name suite kwargs) ts
          (db.1 ++ runEv :: Event.dumpXML od :: da.1,
            match da.2 with
            | none => Except.ok (RunResult.xml result)
            | some e => Except.error (PyError.hookError e))
  else
    ([Event.superRunSuite suite kwargs],
      Except.ok (RunResult.superResult suite kwargs))

/-- `CIRunner.teardown_test_environment` (runner.py lines 131-136): call
the wrapped runner's teardown first; then, if in Jenkins mode, dispatch
each task's `teardown_test_environment` hook if present. -/
def CIRunner.teardown_test_environment (r : CIRunner) (kwargs : KW) :
    List Event × Except PyError Unit :=
  if r.jenkins then
    match r.tasks with
    | none => ([Event.superTeardown kwargs], Except.error (PyError.attributeError "tasks"))
    | some ts =>
      let d := dispatchHooks (fun t => t.teardown_test_environment)
        (fun t => Event.hookTeardown t.task_name kwargs) ts
      (Event.superTeardown kwargs :: d.1,
        match d.2 with
        | none => Except.ok ()
        | some e => Except.error (PyError.hookError e))
  else ([Event.superTeardown kwargs], Except.ok ())

/-- A hook slot is non-raising: absent, or present and returning
normally. -/
def hookOk : Option HookResult → Bool
  | some (HookResult.exn _) => false
  | _ => true

/-- All four hooks of a task are non-raising. -/
def PyTask.allOk (t : PyTask) : Bool :=
  hookOk t.setup_test_environment && hookOk t.before_suite_run
    && hookOk t.after_suite_run && hookOk t.teardown_test_environment

/-- Happy-path characterization of a hook-dispatch loop: when no present
hook raises, exactly the tasks defining the hook produce a call event,
in list order, and no exception escapes. -/
theorem dispatchHooks_all_ok (hook : PyTask → Option HookResult) (ev : PyTask → Event)
    (ts : List PyTask) (h : ∀ t ∈ ts, hookOk (hook t) = true) :
    dispatchHooks hook ev ts = ((ts.filter (fun t => (hook t).isSome)).map ev, none) := by
  induction ts with
  | nil => rfl
  | cons t ts ih =>
    have ht : hookOk (hook t) = true := h t (by simp)
    have hts : ∀ u ∈ ts, hookOk (hook u) = true := fun u hu => h u (by simp [hu])
    cases hh : hook t with
    | none => simp [dispatchHooks, hh, List.filter_cons, ih hts]
    | some hr =>
      cases hr with
      | ok => simp [dispatchHooks, hh, List.filter_cons, ih hts]
      | exn e => rw [hh] at ht; simp [hookOk] at ht

/-- Failure characterization of a hook-dispatch loop: the first raising
hook is reached after the non-raising prefix, its event is recorded, the
exception escapes, and no later task is visited. -/
theorem dispatchHooks_exn (hook : PyTask → Option HookResult) (ev : PyTask → Event)
    (pre post : List PyTask) (t : PyTask) (e : String)
    (hpre : ∀ u ∈ pre, hookOk (hook u) = true)
    (hexn : hook t = some (HookResult.exn e)) :
    dispatchHooks hook ev (pre ++ t :: post) =
      ((pre.filter (fun u => (hook u).isSome)).map ev ++ [ev t], some e) := by
  induction pre with
  | nil => simp [dispatchHooks, hexn]
  | cons u pre ih =>
    have hu : hookOk (hook u) = true := hpre u (by simp)
    have hrest : ∀ v ∈ pre, hookOk (hook v) = true := fun v hv => hpre v (by simp [hv])
    cases hh : hook u with
    | none => simp [dispatchHooks, hh, List.filter_cons, ih hrest]
    | some hr =>
      cases hr with
      | ok => simp [dispatchHooks, hh, List.filter_cons, ih hrest]
      | exn e2 => rw [hh] at hu; simp [hookOk] at hu

/-- A string contains itself as a substring of any right-extension. -/
theorem strContains_self_append (t b : String) : strContains (t ++ b) t :=
  ⟨[], b.data, by simp [String.data_append]⟩

/-- Containment of the middle piece of a three-part concatenation. -/
theorem strContains_mid (a t b : String) : strContains (a ++ (t ++ b)) t := by
  refine ⟨a.data, b.data, ?_⟩
  simp [String.data_append]

/-- Substring containment is preserved by prepending. -/
theorem strContains_cons_left (p s t : String) (h : strContains s t) :
    strContains (p ++ s) t := by
  obtain ⟨a, b, hab⟩ := h
  exact ⟨p.data ++ a, b, by simp [String.data_append, hab]⟩

/-- A sample contributed option, for concrete instantiations. -/
def optA : OptionFlag :=
  { flag := "--alpha", action := "store", dest := "alpha",
    dflt := Sum.inl "", help := "alpha option" }

/-- A sample task instance produced by the sample classes. -/
def taskMade : PyTask :=
  { task_name := "made", setup_test_environment := some HookResult.ok,
    before_suite_run := none, after_suite_run := none,
    teardown_test_environment := some HookResult.ok }

/-- A sample task class that defines a class-level `option_list`. -/
def clsA : TaskClass :=
  { class_name := "A", option_list := some [optA], make := fun _ _ => taskMade }

/-- A sample task class that does NOT define `option_list`. -/
def clsB : TaskClass :=
  { class_name := "B", option_list := none, make := fun _ _ => taskMade }

/-- A sample module `m` exposing classes `A` and `B`. -/
def modM : PyModule := { classes := [("A", clsA), ("B", clsB)] }

/-- A sample environment: module `m` imports, anything else raises
`ImportError`; `TASKS` names both classes of `m`. -/
def envOk : PyEnv :=
  { import_module := fun m =>
      if m = "m" then Except.ok modM
      else Except.error ("No module named " ++ m),
    TASKS := ["m.A", "m.B"], OUTPUT_DIR := "reports" }

/-- A sample environment whose `TASKS` names only the class `A`, which
defines an `option_list`. -/
def envOpt : PyEnv :=
  { import_module := fun m =>
      if m = "m" then Except.ok modM
      else Except.error ("No module named " ++ m),
    TASKS := ["m.A"], OUTPUT_DIR := "reports" }

/-- C3: for every list of task descriptors in which each "module.Class"
string resolves successfully, `get_tasks` returns the list of resolved
classes in exactly the same order as the configuration list, one class
per descriptor. -/
theorem get_tasks_preserves_order (env : PyEnv) (paths : List String)
    (classes : List TaskClass)
    (h : List.Forall₂ (fun p c => resolveTask env p = Except.ok c) paths classes) :
    get_tasks env paths = Except.ok classes := by
  induction h with
  | nil => rfl
  | cons hpc _ ih => simp [get_tasks, hpc, ih]

/-- Witness for C3 at a concrete environment with two descriptors. -/
theorem get_tasks_preserves_order_witness :
    get_tasks envOk ["m.A", "m.B"] = Except.ok [clsA, clsB] :=
  get_tasks_preserves_order envOk ["m.A", "m.B"] [clsA, clsB]
    (List.Forall₂.cons rfl (List.Forall₂.cons rfl List.Forall₂.nil))

/-- C6: an unimportable module yields `ImproperlyConfigured` whose
message contains the module name; an importable module lacking the named
class yields `ImproperlyConfigured` whose message contains both the
module name and the class name. -/
theorem resolution_error_messages (env : PyEnv) (p module classname e : String)
    (rest : List String) :
    (rsplitDot p = some (module, classname) →
      env.import_module module = Except.error e →
      ∃ msg, get_tasks env (p :: rest) = Except.error (PyError.improperlyConfigured msg)
        ∧ strContains msg module)
    ∧ (∀ mod : PyModule, rsplitDot p = some (module, classname) →
      env.import_module module = Except.ok mod →
      mod.classes.lookup classname = none →
      ∃ msg, get_tasks env (p :: rest) = Except.error (PyError.improperlyConfigured msg)
        ∧ strContains msg module ∧ strContains msg classname) := by
  constructor
  · intro hs hi
    exact ⟨"Error importing task " ++ (module ++ (": \x22" ++ (e ++ "\x22"))),
      by simp [get_tasks, resolveTask, hs, hi],
      strContains_mid _ _ _⟩
  · intro mod hs hi hl
    exact ⟨"Task module \x22" ++ (module ++ ("\x22 does not define a \x22"
        ++ (classname ++ "\x22 class"))),
      by simp [get_tasks, resolveTask, hs, hi, hl],
      strContains_mid _ _ _,
      strContains_cons_left _ _ _ (strContains_cons_left _ _ _
        (strContains_cons_left _ _ _ (strContains_self_append _ _)))⟩

/-- Witness for C6: an unimportable module `x` and a missing class `C`
of the importable module `m`. -/
theorem resolution_error_messages_witness :
    (∃ msg, get_tasks envOk ["x.A"] = Except.error (PyError.improperlyConfigured msg)
      ∧ strContains msg "x")
    ∧ (∃ msg, get_tasks envOk ["m.C"] = Except.error (PyError.improperlyConfigured msg)
      ∧ strContains msg "m" ∧ strContains msg "C") :=
  ⟨(resolution_error_messages envOk "x.A" "x" "A" ("No module named " ++ "x") []).1 rfl rfl,
   (resolution_error_messages envOk "m.C" "m" "C" "" []).2 modM rfl rfl rfl⟩

/-- Resolution of a descriptor list with a failing descriptor after a
resolvable prefix surfaces exactly the first failure. -/
theorem get_tasks_first_error (env : PyEnv) (bad : String) (rest : List String)
    (err : PyError) (hbad : resolveTask env bad = Except.error err) :
    ∀ pre : List String, (∀ p ∈ pre, ∃ c, resolveTask env p = Except.ok c) →
      get_tasks env (pre ++ bad :: rest) = Except.error err := by
  intro pre
  induction pre with
  | nil => intro _; simp [get_tasks, hbad]
  | cons q qs ih =>
    intro hpre
    obtain ⟨c, hc⟩ := hpre q (by simp)
    simp [get_tasks, hc, ih (fun p hp => hpre p (by simp [hp]))]

/-- C7: a descriptor string with no module/class separator raises
`ImproperlyConfigured`, and the first failing descriptor aborts
resolution: `get_tasks` returns that error, with no partial list of
resolved classes. -/
theorem first_failure_aborts (env : PyEnv) (pre rest : List String) (bad : String)
    (err : PyError) :
    (rsplitDot bad = none →
      resolveTask env bad = Except.error (PyError.improperlyConfigured
        (bad ++ " isn\x27t a task module")))
    ∧ ((∀ p ∈ pre, ∃ c, resolveTask env p = Except.ok c) →
      resolveTask env bad = Except.error err →
      get_tasks env (pre ++ bad :: rest) = Except.error err) := by
  constructor
  · intro hs; simp [resolveTask, hs]
  · intro hpre hbad
    exact get_tasks_first_error env bad rest err hbad pre hpre

/-- Witness for C7: the separator-free descriptor "plain" aborts a list
that still contains resolvable descriptors after it. -/
theorem first_failure_aborts_witness :
    resolveTask envOk "plain" = Except.error (PyError.improperlyConfigured
      ("plain" ++ " isn\x27t a task module"))
    ∧ get_tasks envOk ["m.A", "plain", "m.B"] = Except.error (PyError.improperlyConfigured
      ("plain" ++ " isn\x27t a task module")) := by
  constructor
  · exact (first_failure_aborts envOk [] [] "plain"
      (PyError.improperlyConfigured ("plain" ++ " isn\x27t a task module"))).1 rfl
  · exact (first_failure_aborts envOk ["m.A"] ["m.B"] "plain"
      (PyError.improperlyConfigured ("plain" ++ " isn\x27t a task module"))).2
      (fun p hp => by rw [List.mem_singleton] at hp; subst hp; exact ⟨clsA, rfl⟩) rfl

/-- A sample task defining all four hooks, none raising. -/
def taskFull : PyTask :=
  { task_name := "full", setup_test_environment := some HookResult.ok,
    before_suite_run := some HookResult.ok, after_suite_run := some HookResult.ok,
    teardown_test_environment := some HookResult.ok }

/-- A sample task defining none of the four hooks. -/
def taskBare : PyTask :=
  { task_name := "bare", setup_test_environment := none,
    before_suite_run := none, after_suite_run := none,
    teardown_test_environment := none }

/-- A sample Jenkins-enabled runner holding `taskFull` then `taskBare`. -/
def rJen : CIRunner :=
  { jenkins := true, output_dir := some (some "reports"),
    tasks := some [taskFull, taskBare], verbosity := 1, failfast := false }

/-- C1: in extended mode, each lifecycle phase invokes exactly the tasks
that define the phase's hook, in task order; tasks lacking the hook are
skipped and no error results. -/
theorem lifecycle_hooks_filtered_in_order (r : CIRunner) (ts : List PyTask)
    (suite : Nat) (kwargs : KW) (od : Option String)
    (hj : r.jenkins = true) (ht : r.tasks = some ts) (hd : r.output_dir = some od)
    (hok : ∀ t ∈ ts, t.allOk = true) :
    r.setup_test_environment kwargs =
      (Event.superSetup kwargs ::
        (ts.filter (fun t => t.setup_test_environment.isSome)).map
          (fun t => Event.hookSetup t.task_name kwargs), Except.ok ())
    ∧ (r.run_suite suite kwargs).1 =
        (ts.filter (fun t => t.before_suite_run.isSome)).map
            (fun t => Event.hookBefore t.task_name suite kwargs)
          ++ Event.runSuite suite true r.verbosity r.failfast
            :: Event.dumpXML od
            :: (ts.filter (fun t => t.after_suite_run.isSome)).map
              (fun t => Event.hookAfter t.task_name suite kwargs)
    ∧ r.teardown_test_environment kwargs =
      (Event.superTeardown kwargs ::
        (ts.filter (fun t => t.teardown_test_environment.isSome)).map
          (fun t => Event.hookTeardown t.task_name kwargs), Except.ok ()) := by
  have hx : ∀ t ∈ ts, hookOk t.setup_test_environment = true
      ∧ hookOk t.before_suite_run = true ∧ hookOk t.after_suite_run = true
      ∧ hookOk t.teardown_test_environment = true := by
    intro t htm
    have h2 := hok t htm
    simp [PyTask.allOk, Bool.and_eq_true, and_assoc] at h2
    exact h2
  refine ⟨?_, ?_, ?_⟩
  · simp [CIRunner.setup_test_environment, hj, ht,
      dispatchHooks_all_ok (fun t => t.setup_test_environment)
        (fun t => Event.hookSetup t.task_name kwargs) ts (fun t m => (hx t m).1)]
  · simp [CIRunner.run_suite, hj, ht, hd,
      dispatchHooks_all_ok (fun t => t.before_suite_run)
        (fun t => Event.hookBefore t.task_name suite kwargs) ts (fun t m => (hx t m).2.1),
      dispatchHooks_all_ok (fun t => t.after_suite_run)
        (fun t => Event.hookAfter t.task_name suite kwargs) ts (fun t m => (hx t m).2.2.1)]
  · simp [CIRunner.teardown_test_environment, hj, ht,
      dispatchHooks_all_ok (fun t => t.teardown_test_environment)
        (fun t => Event.hookTeardown t.task_name kwargs) ts (fun t m => (hx t m).2.2.2)]

/-- Witness for C1: a runner with one fully hooked task and one hookless
task produces exactly one hook event per phase. -/
theorem lifecycle_hooks_filtered_in_order_witness :
    rJen.setup_test_environment [("k", "v")] =
      (Event.superSetup [("k", "v")] :: [Event.hookSetup "full" [("k", "v")]],
        Except.ok ())
    ∧ (rJen.run_suite 5 [("k", "v")]).1 =
        [Event.hookBefore "full" 5 [("k", "v")], Event.runSuite 5 true 1 false,
          Event.dumpXML (some "reports"), Event.hookAfter "full" 5 [("k", "v")]]
    ∧ rJen.teardown_test_environment [("k", "v")] =
      (Event.superTeardown [("k", "v")] :: [Event.hookTeardown "full" [("k", "v")]],
        Except.ok ()) := by
  exact lifecycle_hooks_filtered_in_order rJen [taskFull, taskBare] 5 [("k", "v")]
    (some "reports") rfl rfl rfl (by decide)

/-- C2: in extended mode, `run_suite` dispatches each present
`before_suite_run` hook in order, runs the suite buffered with the
runner's own `verbosity` and `failfast`, dumps the results as XML into
the configured output directory, dispatches each present
`after_suite_run` hook in the same order, and returns the collected
result. -/
theorem run_suite_jenkins_behaviour (r : CIRunner) (ts : List PyTask)
    (suite : Nat) (kwargs : KW) (od : Option String)
    (hj : r.jenkins = true) (ht : r.tasks = some ts) (hd : r.output_dir = some od)
    (hb : ∀ t ∈ ts, hookOk t.before_suite_run = true)
    (ha : ∀ t ∈ ts, hookOk t.after_suite_run = true) :
    r.run_suite suite kwargs =
      ((ts.filter (fun t => t.before_suite_run.isSome)).map
          (fun t => Event.hookBefore t.task_name suite kwargs)
        ++ Event.runSuite suite true r.verbosity r.failfast
          :: Event.dumpXML od
          :: (ts.filter (fun t => t.after_suite_run.isSome)).map
            (fun t => Event.hookAfter t.task_name suite kwargs),
       Except.ok (RunResult.xml
         { suite := suite, buffer := true,
           verbosity := r.verbosity, failfast := r.failfast })) := by
  simp [CIRunner.run_suite, hj, ht, hd,
    dispatchHooks_all_ok (fun t => t.before_suite_run)
      (fun t => Event.hookBefore t.task_name suite kwargs) ts hb,
    dispatchHooks_all_ok (fun t => t.after_suite_run)
      (fun t => Event.hookAfter t.task_name suite kwargs) ts ha]

/-- Witness for C2 at a concrete Jenkins-enabled runner. -/
theorem run_suite_jenkins_behaviour_witness :
    rJen.run_suite 9 [("opt", "x")] =
      ([Event.hookBefore "full" 9 [("opt", "x")], Event.runSuite 9 true 1 false,
        Event.dumpXML (some "reports"), Event.hookAfter "full" 9 [("opt", "x")]],
       Except.ok (RunResult.xml
         { suite := 9, buffer := true, verbosity := 1, failfast := false })) := by
  exact run_suite_jenkins_behaviour rJen [taskFull, taskBare] 9 [("opt", "x")]
    (some "reports") rfl rfl rfl (by decide) (by decide)

/-- C5 counterexample: with one hooked task, the teardown trace
delegates to the wrapped runner FIRST, not last — `super()` is not the
last event of the teardown phase, contradicting the claim that teardown
delegates to the wrapped runner last. -/
theorem teardown_super_not_last_counterexample :
    (rJen.teardown_test_environment []).1 =
      [Event.superTeardown [], Event.hookTeardown "full" []]
    ∧ (rJen.teardown_test_environment []).1.getLast? ≠ some (Event.superTeardown []) := by
  constructor
  · rfl
  · decide

/-- C5 amended: in extended mode, environment setup AND environment
teardown both delegate to the wrapped runner first, then dispatch the
task hooks in instantiation order with all keyword arguments passed
through unchanged. -/
theorem setup_teardown_super_first (r : CIRunner) (ts : List PyTask) (kwargs : KW)
    (hj : r.jenkins = true) (ht : r.tasks = some ts)
    (hs : ∀ t ∈ ts, hookOk t.setup_test_environment = true)
    (hw : ∀ t ∈ ts, hookOk t.teardown_test_environment = true) :
    r.setup_test_environment kwargs =
      (Event.superSetup kwargs ::
        (ts.filter (fun t => t.setup_test_environment.isSome)).map
          (fun t => Event.hookSetup t.task_name kwargs), Except.ok ())
    ∧ r.teardown_test_environment kwargs =
      (Event.superTeardown kwargs ::
        (ts.filter (fun t => t.teardown_test_environment.isSome)).map
          (fun t => Event.hookTeardown t.task_name kwargs), Except.ok ()) := by
  constructor
  · simp [CIRunner.setup_test_environment, hj, ht,
      dispatchHooks_all_ok (fun t => t.setup_test_environment)
        (fun t => Event.hookSetup t.task_name kwargs) ts hs]
  · simp [CIRunner.teardown_test_environment, hj, ht,
      dispatchHooks_all_ok (fun t => t.teardown_test_environment)
        (fun t => Event.hookTeardown t.task_name kwargs) ts hw]

/-- Witness for the amended C5 at a concrete runner and kwargs. -/
theorem setup_teardown_super_first_witness :
    rJen.setup_test_environment [("a", "b")] =
      (Event.superSetup [("a", "b")] :: [Event.hookSetup "full" [("a", "b")]],
        Except.ok ())
    ∧ rJen.teardown_test_environment [("a", "b")] =
      (Event.superTeardown [("a", "b")] :: [Event.hookTeardown "full" [("a", "b")]],
        Except.ok ()) := by
  exact setup_teardown_super_first rJen [taskFull, taskBare] [("a", "b")]
    rfl rfl (by decide) (by decide)

/-- C4: with extended mode disabled, `__init__` instantiates no task
(the `tasks` attribute is never created, and construction never consults
the task configuration), and every lifecycle call delegates directly to
the wrapped runner with no task involvement. -/
theorem disabled_mode_delegates (env env2 : PyEnv) (od : Option String) (v : Nat)
    (f : Bool) (options kwargs : KW) (suite : Nat) :
    CIRunner.init env false od v f options = CIRunner.init env2 false od v f options
    ∧ ∃ r : CIRunner,
      CIRunner.init env false od v f options = Except.ok r
      ∧ r.jenkins = false ∧ r.tasks = none
      ∧ r.setup_test_environment kwargs = ([Event.superSetup kwargs], Except.ok ())
      ∧ r.run_suite suite kwargs =
          ([Event.superRunSuite suite kwargs],
            Except.ok (RunResult.superResult suite kwargs))
      ∧ r.teardown_test_environment kwargs =
          ([Event.superTeardown kwargs], Except.ok ()) := by
  exact ⟨rfl, _, rfl, rfl, rfl, rfl, rfl, rfl⟩

/-- A sample task whose every hook raises an exception "kaboom". -/
def taskBoom : PyTask :=
  { task_name := "boom",
    setup_test_environment := some (HookResult.exn "kaboom"),
    before_suite_run := some (HookResult.exn "kaboom"),
    after_suite_run := some (HookResult.exn "kaboom"),
    teardown_test_environment := some (HookResult.exn "kaboom") }

/-- A sample Jenkins-enabled runner whose middle task raises in every
hook. -/
def rBoom : CIRunner :=
  { jenkins := true, output_dir := some (some "out"),
    tasks := some [taskFull, taskBoom, taskBare], verbosity := 2, failfast := true }

/-- C8: an exception raised inside one task's hook is not caught: the
phase returns that exception and no subsequent task's hook is
dispatched, in each of the four phases. -/
theorem hook_exception_propagates (r : CIRunner) (pre post : List PyTask)
    (t : PyTask) (e : String) (suite : Nat) (kwargs : KW) (od : Option String)
    (hj : r.jenkins = true) (ht : r.tasks = some (pre ++ t :: post)) :
    ((∀ u ∈ pre, hookOk u.setup_test_environment = true) →
      t.setup_test_environment = some (HookResult.exn e) →
      r.setup_test_environment kwargs =
        (Event.superSetup kwargs ::
          ((pre.filter (fun u => u.setup_test_environment.isSome)).map
              (fun u => Event.hookSetup u.task_name kwargs)
            ++ [Event.hookSetup t.task_name kwargs]),
         Except.error (PyError.hookError e)))
    ∧ ((∀ u ∈ pre, hookOk u.before_suite_run = true) →
      t.before_suite_run = some (HookResult.exn e) →
      r.run_suite suite kwargs =
        ((pre.filter (fun u => u.before_suite_run.isSome)).map
            (fun u => Event.hookBefore u.task_name suite kwargs)
          ++ [Event.hookBefore t.task_name suite kwargs],
         Except.error (PyError.hookError e)))
    ∧ (r.output_dir = some od →
      (∀ u ∈ pre ++ t :: post, hookOk u.before_suite_run = true) →
      (∀ u ∈ pre, hookOk u.after_suite_run = true) →
      t.after_suite_run = some (HookResult.exn e) →
      r.run_suite suite kwargs =
        (((pre ++ t :: post).filter (fun u => u.before_suite_run.isSome)).map
            (fun u => Event.hookBefore u.task_name suite kwargs)
          ++ Event.runSuite suite true r.verbosity r.failfast
            :: Event.dumpXML od
            :: ((pre.filter (fun u => u.after_suite_run.isSome)).map
                (fun u => Event.hookAfter u.task_name suite kwargs)
              ++ [Event.hookAfter t.task_name suite kwargs]),
         Except.error (PyError.hookError e)))
    ∧ ((∀ u ∈ pre, hookOk u.teardown_test_environment = true) →
      t.teardown_test_environment = some (HookResult.exn e) →
      r.teardown_test_environment kwargs =
        (Event.superTeardown kwargs ::
          ((pre.filter (fun u => u.teardown_test_environment.isSome)).map
              (fun u => Event.hookTeardown u.task_name kwargs)
            ++ [Event.hookTeardown t.task_name kwargs]),
         Except.error (PyError.hookError e))) := by
  refine ⟨?_, ?_, ?_, ?_⟩
  · intro hpre hexn
    simp [CIRunner.setup_test_environment, hj, ht,
      dispatchHooks_exn (fun u => u.setup_test_environment)
        (fun u => Event.hookSetup u.task_name kwargs) pre post t e hpre hexn]
  · intro hpre hexn
    simp [CIRunner.run_suite, hj, ht,
      dispatchHooks_exn (fun u => u.before_suite_run)
        (fun u => Event.hookBefore u.task_name suite kwargs) pre post t e hpre hexn]
  · intro hd hball hpre hexn
    simp [CIRunner.run_suite, hj, ht, hd,
      dispatchHooks_all_ok (fun u => u.before_suite_run)
        (fun u => Event.hookBefore u.task_name suite kwargs) (pre ++ t :: post) hball,
      dispatchHooks_exn (fun u => u.after_suite_run)
        (fun u => Event.hookAfter u.task_name suite kwargs) pre post t e hpre hexn]
  · intro hpre hexn
    simp [CIRunner.teardown_test_environment, hj, ht,
      dispatchHooks_exn (fun u => u.teardown_test_environment)
        (fun u => Event.hookTeardown u.task_name kwargs) pre post t e hpre hexn]

/-- Witness for C8: the raising middle task halts the setup phase after
the first task's hook, and the hookless third task is never reached. -/
theorem hook_exception_propagates_witness :
    rBoom.setup_test_environment [] =
      (Event.superSetup [] ::
        [Event.hookSetup "full" [], Event.hookSetup "boom" []],
        Except.error (PyError.hookError "kaboom")) := by
  exact (hook_exception_propagates rBoom [taskFull] [taskBare] taskBoom "kaboom"
    0 [] (some "out") rfl rfl).1 (by decide) rfl

/-- The option-collecting fold over classes that all define
`option_list` concatenates their option lists in order. -/
theorem optFold_all_some (classes : List TaskClass) :
    ∀ acc : List OptionFlag, (∀ c ∈ classes, (c.option_list).isSome = true) →
      classes.foldlM optStep acc
        = Except.ok (acc ++ (classes.map (fun c => c.option_list.getD [])).flatten) := by
  induction classes with
  | nil => intro acc _; simp [List.foldlM_nil]; rfl
  | cons c cs ih =>
    intro acc h
    obtain ⟨opts, hopts⟩ := Option.isSome_iff_exists.mp (h c (by simp))
    simp [List.foldlM_cons, optStep, hopts, Except.bind, Bind.bind,
      ih (acc ++ opts) (fun u hu => h u (by simp [hu]))]

/-- The option-collecting fold stops with `AttributeError` at the first
class lacking `option_list`. -/
theorem optFold_first_none (cpost : List TaskClass) (c : TaskClass)
    (hc : c.option_list = none) :
    ∀ (cpre : List TaskClass) (acc : List OptionFlag),
      (∀ u ∈ cpre, (u.option_list).isSome = true) →
      (cpre ++ c :: cpost).foldlM optStep acc
        = Except.error (PyError.attributeError "option_list") := by
  intro cpre
  induction cpre with
  | nil => intro acc _; simp [List.foldlM_cons, optStep, hc, Except.bind, Bind.bind]
  | cons u us ih =>
    intro acc hpre
    obtain ⟨opts, hopts⟩ := Option.isSome_iff_exists.mp (hpre u (by simp))
    simp [List.foldlM_cons, optStep, hopts, Except.bind, Bind.bind,
      ih (acc ++ opts) (fun v hv => hpre v (by simp [hv]))]

/-- C9 counterexample: the descriptor list of `envOk` resolves (class
`B` is accepted by `get_tasks`), yet building the legacy option list
raises `AttributeError` because `B` defines no `option_list` — a task
class without a class-level option list is NOT accepted in legacy
option-list mode. -/
theorem option_list_required_counterexample :
    get_tasks envOk envOk.TASKS = Except.ok [clsA, clsB]
    ∧ CIRunner_option_list envOk = Except.error (PyError.attributeError "option_list") :=
  ⟨rfl, rfl⟩

/-- C9 amended: in legacy option-list mode the runner's option list is
every task class's contributed options in configuration order followed
by the `--jenkins` and `--output-dir` flags, and a class-level
`option_list` is REQUIRED: a task class that does not define one raises
`AttributeError` during option collection. -/
theorem option_list_collection (env : PyEnv) (classes : List TaskClass)
    (h : get_tasks env env.TASKS = Except.ok classes) :
    ((∀ c ∈ classes, (c.option_list).isSome = true) →
      CIRunner_option_list env =
        Except.ok ((classes.map (fun c => c.option_list.getD [])).flatten
          ++ [jenkins_option, output_dir_option env]))
    ∧ (∀ cpre c cpost, classes = cpre ++ c :: cpost →
      (∀ u ∈ cpre, (u.option_list).isSome = true) →
      c.option_list = none →
      CIRunner_option_list env = Except.error (PyError.attributeError "option_list")) := by
  constructor
  · intro hall
    simp [CIRunner_option_list, get_task_options, h,
      optFold_all_some classes [] hall]
  · intro cpre c cpost hsplit hpre hc
    subst hsplit
    simp [CIRunner_option_list, get_task_options, h,
      optFold_first_none cpost c hc cpre [] hpre]

/-- Witness for the amended C9: a configuration whose only class
contributes one option yields that option followed by the two built-in
flags, and a configuration containing an option-list-less class raises
`AttributeError`. -/
theorem option_list_collection_witness :
    CIRunner_option_list envOpt =
      Except.ok [optA, jenkins_option, output_dir_option envOpt]
    ∧ CIRunner_option_list envOk = Except.error (PyError.attributeError "option_list") := by
  constructor
  · exact (option_list_collection envOpt [clsA] rfl).1
      (fun c hc => by rw [List.mem_singleton] at hc; subst hc; rfl)
  · exact (option_list_collection envOk [clsA, clsB] rfl).2 [clsA] clsB []
      rfl (fun u hu => by rw [List.mem_singleton] at hu; subst hu; rfl) rfl

/-- C10: a runner constructed with extended mode disabled never creates
the `tasks` and `output_dir` attributes, and no lifecycle call raises
`AttributeError`, because every read of those attributes is guarded by
the `jenkins` flag. -/
theorem no_undefined_attribute_reads (env : PyEnv) (od : Option String) (v : Nat)
    (f : Bool) (options kwargs : KW) (suite : Nat) :
    ∃ r : CIRunner,
      CIRunner.init env false od v f options = Except.ok r
      ∧ r.output_dir = none ∧ r.tasks = none
      ∧ (∀ a : String,
          (r.setup_test_environment kwargs).2 ≠ Except.error (PyError.attributeError a))
      ∧ (∀ a : String,
          (r.run_suite suite kwargs).2 ≠ Except.error (PyError.attributeError a))
      ∧ (∀ a : String,
          (r.teardown_test_environment kwargs).2
            ≠ Except.error (PyError.attributeError a)) := by
  refine ⟨_, rfl, rfl, rfl, ?_, ?_, ?_⟩
  · intro a h
    simp [CIRunner.setup_test_environment] at h
  · intro a h
    simp [CIRunner.run_suite] at h
  · intro a h
    simp [CIRunner.teardown_test_environment] at h
